import Mathlib

/-!
Shallow embedding of the cross-provider volume lifecycle manager: the Azure
reference backend (`CreateVolume`, `GetAllVolumes`, `AttachVolume`,
`DetachVolume`) and the IBM stub backend. External collaborators (local image
synthesis, object-store upload, the provider SDK calls) are modelled as
explicit result parameters; the sequence of collaborator invocations performed
by `CreateVolume` is recorded as a step trace so that abort-before-effect
properties are statable. Machine integers are modelled as `Int`/`Nat` with Go's
truncating division (`Int.div`) and an explicit two's-complement wrap for the
`int32` conversion. Provider descriptor fields that are pointers in the SDK are
modelled as `Option`; a `none` result of a whole operation models a nil-pointer
panic.
-/

namespace Ops

/-- Provider-neutral volume record (`NanosVolume`). -/
structure NanosVolume where
  name : String
  status : String
  size : String
  path : String
  createdAt : String
  attachedTo : String
deriving DecidableEq

/-- Digit accumulation of Go `strconv.Atoi`: fails on any non-digit character. -/
def parseDigitsAux : List Char → Nat → Option Nat
  | [], acc => some acc
  | c :: cs, acc =>
    if c.isDigit then parseDigitsAux cs (acc * 10 + (c.toNat - 48)) else none

/-- Go `strconv.Atoi`: optional leading sign, at least one digit, signed 64-bit
range; any other input is an error (`none`). -/
def atoi (s : String) : Option Int :=
  let core : Bool → List Char → Option Int := fun neg ds =>
    match ds with
    | [] => none
    | _ :: _ =>
      match parseDigitsAux ds 0 with
      | none => none
      | some n =>
        let v : Int := if neg then -(n : Int) else (n : Int)
        if v < -(2 ^ 63) ∨ (2 ^ 63 - 1 : Int) < v then none else some v
  match s.data with
  | '-' :: r => core true r
  | '+' :: r => core false r
  | r => core false r

/-- Go integer division, which truncates toward zero. -/
def goDiv (a b : Int) : Int := Int.tdiv a b

/-- Go conversion `int32(x)`: two's-complement wrap to 32 bits. -/
def int32wrap (n : Int) : Int := (n + 2 ^ 31) % 2 ^ 32 - 2 ^ 31

/-- The slice of `Config` this core reads and writes. -/
structure CloudConfig where
  imageName : String
  bucketName : String
deriving DecidableEq

/-- Configuration object threaded through the operations. -/
structure Config where
  cloudConfig : CloudConfig
deriving DecidableEq

/-- Results of the external collaborators consumed by `Azure.CreateVolume`:
`CreateLocalVolume`, `Storage.CopyToBucket` and `disksClient.CreateOrUpdate`. -/
structure CreateEnv where
  localVolume : Except String NanosVolume
  copyResult : Except String Unit
  diskCreateResult : Except String Unit

/-- One collaborator invocation performed by `CreateVolume`, in order. The
`upload` step records the `CloudConfig.ImageName` visible to the upload
collaborator at call time; the `remoteCreate` step records the disk resource
name and the `DiskSizeGB` value submitted to the provider. -/
inductive CreateStep where
  | synth
  | upload (imageName : String)
  | remoteCreate (diskName : String) (sizeGB : Int)
deriving DecidableEq

/-- Error taxonomy of `CreateVolume`, carrying the Go error message. -/
inductive CreateErr where
  | invalidSize
  | localSynthesis (msg : String)
  | upload (msg : String)
  | remoteCreate (msg : String)
deriving DecidableEq

/-- Outcome of a `CreateVolume` run: the returned value or error, the trace of
collaborator invocations, and the final state of the config object. -/
structure CreateOutcome where
  result : Except CreateErr NanosVolume
  steps : List CreateStep
  finalConfig : Config

/-- Embedding of `Azure.CreateVolume` (src/unnamed/part_000, lines 14-67):
parse the size with `strconv.Atoi`; synthesize the local volume; set
`config.CloudConfig.ImageName = name`; upload; create the remote disk with
`DiskSizeGB = int32(sizeInt / 1000 / 1000)`. -/
def createVolume (a : CreateEnv) (config : Config) (name _data size _provider : String) :
    CreateOutcome :=
  match atoi size with
  | none => ⟨.error .invalidSize, [], config⟩
  | some sizeInt =>
    match a.localVolume with
    | .error e =>
      ⟨.error (.localSynthesis ("create local volume: " ++ e)), [.synth], config⟩
    | .ok vol =>
      let config' : Config :=
        { config with cloudConfig := { config.cloudConfig with imageName := name } }
      match a.copyResult with
      | .error e =>
        ⟨.error (.upload ("copy volume archive to azure bucket: " ++ e)),
          [.synth, .upload config'.cloudConfig.imageName], config'⟩
      | .ok _ =>
        let gb : Int := int32wrap (goDiv (goDiv sizeInt 1000) 1000)
        match a.diskCreateResult with
        | .error e =>
          ⟨.error (.remoteCreate e),
            [.synth, .upload config'.cloudConfig.imageName, .remoteCreate name gb], config'⟩
        | .ok _ =>
          ⟨.ok vol,
            [.synth, .upload config'.cloudConfig.imageName, .remoteCreate name gb], config'⟩

/-- Subset of the Azure SDK `compute.DiskProperties` descriptor read by
`GetAllVolumes`. Pointer fields are `Option`; `DiskState` is a plain string. -/
structure DiskProperties where
  diskState : String
  diskSizeGB : Option Int
  timeCreated : Option String
deriving DecidableEq

/-- Subset of the Azure SDK `compute.Disk` descriptor read by `GetAllVolumes`.
`name` and `managedBy` are pointer fields of the disk resource itself;
`properties` is the embedded `*DiskProperties`. -/
structure Disk where
  name : Option String
  managedBy : Option String
  properties : Option DiskProperties
deriving DecidableEq

/-- Go `strings.Split` on a one-character separator, over the character list.
`strings.Split` always returns a non-empty slice. -/
def splitChar (sep : Char) : List Char → List (List Char)
  | [] => [[]]
  | c :: cs =>
    match splitChar sep cs with
    | [] => [[]]
    | h :: t => if c = sep then [] :: h :: t else (c :: h) :: t

/-- The `AttachedTo` computation of `GetAllVolumes` (lines 88-93): empty when
`ManagedBy` is nil, otherwise the last element of `strings.Split(*ManagedBy, "/")`. -/
def attachedToOf (managedBy : Option String) : String :=
  match managedBy with
  | none => ""
  | some s => String.mk ((splitChar '/' s.data).getLastD [])

/-- Per-disk body of the `GetAllVolumes` loop (lines 87-102): builds a
`NanosVolume` from a listed disk descriptor. The code dereferences `Name`,
`DiskProperties`, `DiskSizeGB` and `TimeCreated` without nil checks, so a
missing field is a panic, modelled as `none`. -/
def diskToVolume (disk : Disk) : Option NanosVolume :=
  match disk.name, disk.properties with
  | some n, some props =>
    match props.diskSizeGB, props.timeCreated with
    | some gb, some tc =>
      some { name := n, status := props.diskState, size := toString gb, path := "",
             createdAt := tc, attachedTo := attachedToOf disk.managedBy }
    | _, _ => none
  | _, _ => none

/-- One `azureDisksPage.Next()` call against a scripted provider. The script
entry for the k-th call is `some v`: the call succeeds and the page values
become `v` (with `[]` standing for the nil values of a terminal page); or
`none`: the call fails, the code discards the error, and the page is left
unchanged. A call past the end of the script behaves as a terminal page. -/
def stepNext (nexts : List (Option (List Disk))) (k : Nat) (dl : List Disk) : List Disk :=
  match nexts.get? k with
  | some (some v) => v
  | some none => dl
  | none => []

/-- Inner loop of `GetAllVolumes` (lines 87-107): iterate over the snapshot of
the current page values, convert each disk, and call `Next()` once per disk
(as the code does), counting `Next()` calls with `k`. -/
def listInner (nexts : List (Option (List Disk))) :
    List Disk → Nat → List Disk → List NanosVolume →
    Option (Nat × List Disk × List NanosVolume)
  | [], k, dl, acc => some (k, dl, acc)
  | d :: ds, k, dl, acc =>
    match diskToVolume d with
    | none => none
    | some v => listInner nexts ds (k + 1) (stepNext nexts k dl) (acc ++ [v])

/-- Outer loop of `GetAllVolumes` (lines 80-108): re-read the current page
values, stop when they are nil, otherwise run the inner loop. Fuel bounds the
iteration count; every `Next()` call consumes a script entry and an exhausted
script is a terminal page, so `nexts.length + 2` fuel is never exhausted. -/
def listOuter (nexts : List (Option (List Disk))) :
    Nat → Nat → List Disk → List NanosVolume → Option (List NanosVolume)
  | 0, _, _, _ => none
  | fuel + 1, k, dl, acc =>
    match dl with
    | [] => some acc
    | ds =>
      match listInner nexts ds k dl acc with
      | none => none
      | some (k', dl', acc') => listOuter nexts fuel k' dl' acc'

/-- Embedding of `Azure.GetAllVolumes` (lines 70-111). `listResult` is the
outcome of the initial `List()` call (its value being the first page's
`Values()`, nil modelled as `[]`); `nexts` scripts the successive `Next()`
calls. The outer `none` models a panic; otherwise the function returns the
error of the initial call or the collected volumes. -/
def getAllVolumes (listResult : Except String (List Disk))
    (nexts : List (Option (List Disk))) : Option (Except String (List NanosVolume)) :=
  match listResult with
  | .error e => some (.error e)
  | .ok dl => (listOuter nexts (nexts.length + 2) 0 dl []).map Except.ok

/-- Subset of the Azure SDK `compute.DataDisk` entry of a VM storage profile. -/
structure DataDisk where
  lun : Option Int
  name : Option String
  createOption : String
  managedDiskID : Option String
deriving DecidableEq

/-- Subset of a VM resource descriptor: its data-disk list plus the rest of the
descriptor, which attach/detach must not touch. -/
structure VirtualMachine where
  rest : String
  dataDisks : List DataDisk
deriving DecidableEq

/-- Subset of the disk resource descriptor fetched by `AttachVolume`. -/
structure DiskResource where
  id : Option String
deriving DecidableEq

/-- Error taxonomy of `AttachVolume`/`DetachVolume`, carrying the Go error
message: lookup errors are returned verbatim, the update submission error is
wrapped with one message and the completion-wait error with another. -/
inductive VMOpErr where
  | getVM (msg : String)
  | getDisk (msg : String)
  | update (msg : String)
  | wait (msg : String)
deriving DecidableEq

/-- The single data-disk entry built by `AttachVolume` (lines 140-149):
logical unit number 0, the given name, create option `Attach`, and the managed
disk reference taken from `*disk.ID`. -/
def attachDataDisk (name diskID : String) : DataDisk :=
  { lun := some 0, name := some name, createOption := "Attach", managedDiskID := some diskID }

/-- Embedding of `Azure.AttachVolume` (lines 126-164): fetch the VM descriptor,
fetch the disk descriptor, replace the VM's whole data-disk list with the
single new entry, submit the update, and wait for completion. The second
component records the VM descriptor submitted to `CreateOrUpdate`, when the
code reaches the submission. The outer `none` models the nil dereference of
`*disk.ID`. -/
def attachVolume (vmGet : Except String VirtualMachine)
    (diskGet : Except String DiskResource)
    (updateResult waitResult : Except String Unit) (name : String) :
    Option (Except VMOpErr Unit × Option VirtualMachine) :=
  match vmGet with
  | .error e => some (.error (.getVM e), none)
  | .ok vm =>
    match diskGet with
    | .error e => some (.error (.getDisk e), none)
    | .ok disk =>
      match disk.id with
      | none => none
      | some diskID =>
        let vm' : VirtualMachine := { vm with dataDisks := [attachDataDisk name diskID] }
        match updateResult with
        | .error e => some (.error (.update ("cannot update vm: " ++ e)), some vm')
        | .ok _ =>
          match waitResult with
          | .error e =>
            some (.error (.wait ("cannot get the vm create or update future response: " ++ e)),
              some vm')
          | .ok _ => some (.ok (), some vm')

/-- The data-disk filter of `DetachVolume` (lines 174-180): keep every entry
whose `*Name` differs from the volume name, in order. Each entry's `Name` is
dereferenced without a nil check, so a nil name is a panic (`none`). -/
def detachFilter (name : String) : List DataDisk → Option (List DataDisk)
  | [] => some []
  | d :: ds =>
    match d.name with
    | none => none
    | some dn =>
      match detachFilter name ds with
      | none => none
      | some r => some (if dn ≠ name then d :: r else r)

/-- Embedding of `Azure.DetachVolume` (lines 167-197): fetch the VM descriptor,
filter its data-disk list, submit the filtered list as a full replacement, and
wait for completion, with the same error wrapping as `AttachVolume`. -/
def detachVolume (vmGet : Except String VirtualMachine)
    (updateResult waitResult : Except String Unit) (name : String) :
    Option (Except VMOpErr Unit × Option VirtualMachine) :=
  match vmGet with
  | .error e => some (.error (.getVM e), none)
  | .ok vm =>
    match detachFilter name vm.dataDisks with
    | none => none
    | some dds =>
      let vm' : VirtualMachine := { vm with dataDisks := dds }
      match updateResult with
      | .error e => some (.error (.update ("cannot update vm: " ++ e)), some vm')
      | .ok _ =>
        match waitResult with
        | .error e =>
          some (.error (.wait ("cannot get the vm create or update future response: " ++ e)),
            some vm')
        | .ok _ => some (.ok (), some vm')

/-- Opaque `lepton.Context` argument of the stub backend; its operations never
inspect it. -/
def Ctx : Type := Unit

/-- The zero value of the Go `NanosVolume` struct. -/
def zeroVolume : NanosVolume :=
  { name := "", status := "", size := "", path := "", createdAt := "", attachedTo := "" }

/-- Embedding of the IBM stub `CreateVolume` (src/provider/ibm/ibm_volume.go):
returns the zero volume and a nil error. -/
def ibmCreateVolume (_ctx : Ctx) (_name _data _provider : String) :
    NanosVolume × Option String := (zeroVolume, none)

/-- Embedding of the IBM stub `GetAllVolumes`: returns a nil list pointer and a
nil error. -/
def ibmGetAllVolumes (_ctx : Ctx) : Option (List NanosVolume) × Option String := (none, none)

/-- Embedding of the IBM stub `DeleteVolume`: returns a nil error. -/
def ibmDeleteVolume (_ctx : Ctx) (_name : String) : Option String := none

/-- Embedding of the IBM stub `AttachVolume`: returns a nil error. -/
def ibmAttachVolume (_ctx : Ctx) (_image _name : String) (_attachID : Int) : Option String :=
  none

/-- Embedding of the IBM stub `DetachVolume`: returns a nil error. -/
def ibmDetachVolume (_ctx : Ctx) (_image _name : String) : Option String := none

/-- Trailing path segment of a string, written from the spec: everything after
the last separator occurrence (the whole string when the separator is absent). -/
def trailingSegment (sep : Char) (s : String) : String :=
  String.mk ((s.data.reverse.takeWhile (fun c => c != sep)).reverse)

/-- Spec-side reading of the `AttachedTo` derivation: the trailing path segment
of the managed-by reference, or the empty string when it is absent. -/
def specAttachedTo (managedBy : Option String) : String :=
  match managedBy with
  | none => ""
  | some s => trailingSegment '/' s

/-! Helper lemmas shared by the claim theorems. -/

/-- Division of natural numbers cast to `Int` agrees with `Nat` division under
Go's truncating division. -/
theorem goDiv_ofNat (m n : Nat) : goDiv (m : Int) (n : Int) = ((m / n : Nat) : Int) := rfl

/-- The `int32` wrap is the identity on values below `2 ^ 31`. -/
theorem int32wrap_of_lt (m : Nat) (h : m < 2 ^ 31) : int32wrap (m : Int) = (m : Int) := by
  unfold int32wrap
  have h0 : (0 : Int) ≤ (m : Int) + 2 ^ 31 := by positivity
  have h1 : (m : Int) + 2 ^ 31 < 2 ^ 32 := by
    have hm : (m : Int) < 2 ^ 31 := by exact_mod_cast h
    omega
  rw [Int.emod_eq_of_lt h0 h1]
  omega

/-- The size conversion of `CreateVolume` computes the byte count divided by
1,000,000 (truncating), whenever the result fits in 32 bits. -/
theorem sizeConv_eq (n : Nat) (h : n / 1000000 < 2 ^ 31) :
    int32wrap (goDiv (goDiv (n : Int) 1000) 1000) = ((n / 1000000 : Nat) : Int) := by
  have e1 : goDiv (goDiv (n : Int) 1000) 1000 = ((n / 1000 / 1000 : Nat) : Int) := rfl
  have e2 : n / 1000 / 1000 = n / 1000000 := by
    rw [Nat.div_div_eq_div_mul]
  rw [e1, e2]
  exact int32wrap_of_lt _ h

/-- Go `strings.Split` never returns an empty slice. -/
theorem splitChar_ne_nil (sep : Char) (l : List Char) : splitChar sep l ≠ [] := by
  cases l with
  | nil => simp [splitChar]
  | cons c cs =>
    rw [splitChar]
    cases splitChar sep cs with
    | nil => simp
    | cons hd tl => by_cases hc : c = sep <;> simp [hc]

/-- Splitting a list free of the separator yields the singleton of the list. -/
theorem splitChar_of_not_mem (sep : Char) (l : List Char) (h : sep ∉ l) :
    splitChar sep l = [l] := by
  induction l with
  | nil => rfl
  | cons c cs ih =>
    have hc : c ≠ sep := fun he => h (he ▸ List.mem_cons_self c cs)
    have hcs : sep ∉ cs := fun hm => h (List.mem_cons_of_mem c hm)
    rw [splitChar, ih hcs]
    simp [hc]

/-- Splitting a list containing the separator yields at least two segments. -/
theorem splitChar_length_of_mem (sep : Char) (l : List Char) (h : sep ∈ l) :
    2 ≤ (splitChar sep l).length := by
  induction l with
  | nil => cases h
  | cons c cs ih =>
    rw [splitChar]
    cases hs : splitChar sep cs with
    | nil => exact absurd hs (splitChar_ne_nil sep cs)
    | cons hd tl =>
      by_cases hc : c = sep
      · simp [hc]
      · have hm : sep ∈ cs := by
          rcases List.mem_cons.mp h with h1 | h2
          · exact absurd h1.symm hc
          · exact h2
        have h2 := ih hm
        rw [hs] at h2
        simp only [List.length_cons] at h2 ⊢
        simp [hc]
        omega

/-- Appending one element failing the predicate does not change `takeWhile`. -/
theorem takeWhile_append_singleton (p : Char → Bool) (xs : List Char) (y : Char)
    (hy : p y = false) : (xs ++ [y]).takeWhile p = xs.takeWhile p := by
  induction xs with
  | nil => simp [List.takeWhile_cons, hy]
  | cons x xs ih =>
    by_cases hx : p x <;> simp [List.takeWhile_cons, hx, ih]

/-- When the separator occurs in the prefix, `takeWhile` ignores the suffix. -/
theorem takeWhile_append_of_mem (sep : Char) (xs ys : List Char) (h : sep ∈ xs) :
    (xs ++ ys).takeWhile (fun c => c != sep) = xs.takeWhile (fun c => c != sep) := by
  induction xs with
  | nil => cases h
  | cons x xs ih =>
    by_cases hx : x = sep
    · simp [List.takeWhile_cons, hx]
    · have hm : sep ∈ xs := by
        rcases List.mem_cons.mp h with h1 | h2
        · exact absurd h1.symm hx
        · exact h2
      simp [List.takeWhile_cons, hx, ih hm]

/-- The last segment produced by `splitChar` is the run of non-separator
characters at the end of the list. -/
theorem splitChar_getLastD (sep : Char) (l : List Char) :
    (splitChar sep l).getLastD [] = (l.reverse.takeWhile (fun c => c != sep)).reverse := by
  induction l with
  | nil => rfl
  | cons c cs ih =>
    cases hs : splitChar sep cs with
    | nil => exact absurd hs (splitChar_ne_nil sep cs)
    | cons hd tl =>
      rw [hs] at ih
      have hsplit : splitChar sep (c :: cs) =
          if c = sep then [] :: hd :: tl else (c :: hd) :: tl := by
        rw [splitChar, hs]
      rw [hsplit]
      by_cases hc : c = sep
      · subst hc
        rw [if_pos rfl, List.getLastD_cons, List.reverse_cons,
          takeWhile_append_singleton _ _ _ (by simp)]
        exact ih
      · rw [if_neg hc, List.getLastD_cons, List.reverse_cons]
        by_cases hm : sep ∈ cs
        · rw [takeWhile_append_of_mem sep (List.reverse cs) [c] (List.mem_reverse.mpr hm)]
          have h2 := splitChar_length_of_mem sep cs hm
          rw [hs] at h2
          cases tl with
          | nil => simp at h2
          | cons t ts =>
            rw [List.getLastD_cons, List.getLastD_cons] at ih
            rw [List.getLastD_cons]
            exact ih
        · have hcs := splitChar_of_not_mem sep cs hm
          rw [hs] at hcs
          obtain ⟨h1, h2⟩ := List.cons.inj hcs
          subst h2
          have hall : ∀ x ∈ List.reverse cs ++ [c], (fun y => y != sep) x = true := by
            intro x hx
            rcases List.mem_append.mp hx with hx1 | hx1
            · have hxc : x ∈ cs := List.mem_reverse.mp hx1
              simp only [bne_iff_ne, ne_eq]
              exact fun he => hm (he ▸ hxc)
            · simp only [List.mem_singleton] at hx1
              subst hx1
              simpa using hc
          rw [List.takeWhile_eq_self_iff.mpr hall, h1]
          simp

/-- The `AttachedTo` derivation computes the trailing path segment. -/
theorem attachedToOf_eq_spec (managedBy : Option String) :
    attachedToOf managedBy = specAttachedTo managedBy := by
  cases managedBy with
  | none => rfl
  | some s =>
    simp only [attachedToOf, specAttachedTo, trailingSegment, splitChar_getLastD]

/-- Filtering a data-disk list for a name that matches no populated entry
returns the list unchanged. -/
theorem detachFilter_of_no_match (name : String) (dds : List DataDisk)
    (h : ∀ d ∈ dds, ∃ dn, d.name = some dn ∧ dn ≠ name) :
    detachFilter name dds = some dds := by
  induction dds with
  | nil => rfl
  | cons d ds ih =>
    obtain ⟨dn, hdn, hne⟩ := h d (List.mem_cons_self d ds)
    have hrest := ih (fun x hx => h x (List.mem_cons_of_mem d hx))
    simp [detachFilter, hdn, hrest, hne]

/-! Concrete values shared by witnesses and counterexamples. -/

/-- A configuration with empty cloud fields. -/
def cfg0 : Config := ⟨⟨"", ""⟩⟩

/-- A sample result of the local-volume collaborator. -/
def vol0 : NanosVolume :=
  { name := "vol1", status := "", size := "100", path := "lv/vol1.raw", createdAt := "",
    attachedTo := "" }

/-- Collaborator environment in which every call succeeds. -/
def envOK : CreateEnv := ⟨.ok vol0, .ok (), .ok ()⟩

/-- Collaborator environment in which local synthesis fails. -/
def envSynthFail : CreateEnv := ⟨.error "disk full", .ok (), .ok ()⟩

/-- Collaborator environment in which the upload fails. -/
def envUploadFail : CreateEnv := ⟨.ok vol0, .error "403", .ok ()⟩

/-- Collaborator environment in which the remote disk creation fails. -/
def envRemoteFail : CreateEnv := ⟨.ok vol0, .ok (), .error "quota exceeded"⟩

/-- A sample VM descriptor with one pre-existing data disk. -/
def vmEx : VirtualMachine :=
  { rest := "osdisk", dataDisks := [⟨some 0, some "old", "Attach", some "oldID"⟩] }

/-- A sample disk resource descriptor with a populated ID. -/
def diskRes : DiskResource := ⟨some "DID"⟩

/-! Claim theorems. -/

/-- C9: each of the stub backend's five operations returns no error and a
zero-value result (empty volume record, nil list, or nothing) for every
argument values, performing no provider work. -/
theorem ibm_stub_noop :
    ∀ (ctx : Ctx) (name data provider image : String) (attachID : Int),
      ibmCreateVolume ctx name data provider = (zeroVolume, none) ∧
      ibmGetAllVolumes ctx = (none, none) ∧
      ibmDeleteVolume ctx name = none ∧
      ibmAttachVolume ctx image name attachID = none ∧
      ibmDetachVolume ctx image name = none := by
  intro ctx name data provider image attachID
  exact ⟨rfl, rfl, rfl, rfl, rfl⟩

/-- C7: CreateVolume aborts on an unparseable size before any collaborator
call; aborts after a failed local synthesis before uploading; aborts after a
failed upload before the remote disk-creation call; and surfaces the
remote-creation error when the provider rejects disk creation. The recorded
step trace witnesses which collaborators were invoked. -/
theorem azure_createVolume_error_order :
    ∀ (a : CreateEnv) (config : Config) (name data size provider : String),
      (atoi size = none →
        (createVolume a config name data size provider).result = .error .invalidSize ∧
        (createVolume a config name data size provider).steps = []) ∧
      (∀ n e, atoi size = some n → a.localVolume = .error e →
        (createVolume a config name data size provider).result =
          .error (.localSynthesis ("create local volume: " ++ e)) ∧
        (createVolume a config name data size provider).steps = [.synth]) ∧
      (∀ n v e, atoi size = some n → a.localVolume = .ok v → a.copyResult = .error e →
        (createVolume a config name data size provider).result =
          .error (.upload ("copy volume archive to azure bucket: " ++ e)) ∧
        (createVolume a config name data size provider).steps = [.synth, .upload name]) ∧
      (∀ n v e, atoi size = some n → a.localVolume = .ok v → a.copyResult = .ok () →
        a.diskCreateResult = .error e →
        (createVolume a config name data size provider).result = .error (.remoteCreate e)) := by
  intro a config name data size provider
  refine ⟨?_, ?_, ?_, ?_⟩
  · intro h
    simp [createVolume, h]
  · intro n e h1 h2
    simp [createVolume, h1, h2]
  · intro n v e h1 h2 h3
    simp [createVolume, h1, h2, h3]
  · intro n v e h1 h2 h3 h4
    simp [createVolume, h1, h2, h3, h4]

/-- Closed instance of `azure_createVolume_error_order` at concrete inputs for
each failure mode. -/
theorem azure_createVolume_error_order_witness :
    ((createVolume envOK cfg0 "vol1" "" "12a" "azure").result = .error .invalidSize ∧
      (createVolume envOK cfg0 "vol1" "" "12a" "azure").steps = []) ∧
    (createVolume envSynthFail cfg0 "vol1" "" "100" "azure").steps = [.synth] ∧
    (createVolume envUploadFail cfg0 "vol1" "" "100" "azure").steps =
      [.synth, .upload "vol1"] ∧
    (createVolume envRemoteFail cfg0 "vol1" "" "100" "azure").result =
      .error (.remoteCreate "quota exceeded") := by
  refine ⟨?_, ?_, ?_, ?_⟩
  · exact (azure_createVolume_error_order envOK cfg0 "vol1" "" "12a" "azure").1 (by decide)
  · exact ((azure_createVolume_error_order envSynthFail cfg0 "vol1" "" "100" "azure").2.1
      100 "disk full" (by decide) rfl).2
  · exact ((azure_createVolume_error_order envUploadFail cfg0 "vol1" "" "100" "azure").2.2.1
      100 vol0 "403" (by decide) rfl rfl).2
  · exact (azure_createVolume_error_order envRemoteFail cfg0 "vol1" "" "100" "azure").2.2.2
      100 vol0 "quota exceeded" (by decide) rfl rfl rfl

/-- C8: whenever CreateVolume reaches the upload step, the config's
`CloudConfig.ImageName` has been set to the volume name before the upload
collaborator runs (and remains set in the returned config), so the config acts
as an output parameter. -/
theorem azure_createVolume_sets_imageName :
    ∀ (a : CreateEnv) (config : Config) (name data size provider img : String),
      CreateStep.upload img ∈ (createVolume a config name data size provider).steps →
      img = name ∧
      (createVolume a config name data size provider).finalConfig.cloudConfig.imageName =
        name := by
  intro a config name data size provider img h
  cases hA : atoi size with
  | none => simp [createVolume, hA] at h
  | some n =>
    cases hL : a.localVolume with
    | error e => simp [createVolume, hA, hL] at h
    | ok v =>
      cases hC : a.copyResult with
      | error e =>
        simp only [createVolume, hA, hL, hC] at h ⊢
        simp at h
        exact ⟨h, trivial⟩
      | ok u =>
        cases hD : a.diskCreateResult with
        | error e =>
          simp only [createVolume, hA, hL, hC, hD] at h ⊢
          simp at h
          exact ⟨h, trivial⟩
        | ok w =>
          simp only [createVolume, hA, hL, hC, hD] at h ⊢
          simp at h
          exact ⟨h, trivial⟩

/-- Closed instance of `azure_createVolume_sets_imageName`: the upload step of
a successful run carries the volume name, which is also left in the config. -/
theorem azure_createVolume_sets_imageName_witness :
    "vol1" = "vol1" ∧
    (createVolume envOK cfg0 "vol1" "" "100" "azure").finalConfig.cloudConfig.imageName =
      "vol1" :=
  azure_createVolume_sets_imageName envOK cfg0 "vol1" "" "100" "azure" "vol1"
    (by decide)

/-- C1 counterexample: the claim's conversion does not hold on the code. A
run of CreateVolume with size string `"5000000000"` submits a remote disk
named `"vol1"` whose size value is `5000`, not `5`; and the claim's own
divisor (integer division by 1,000,000 applied twice) maps 1,999,999 to `0`,
not `1`. -/
theorem azure_sizeConversion_cex :
    (createVolume envOK cfg0 "vol1" "" "5000000000" "azure").steps =
      [.synth, .upload "vol1", .remoteCreate "vol1" 5000] ∧
    (5000 : Int) ≠ 5 ∧
    goDiv (goDiv 1999999 1000000) 1000000 = 0 ∧
    (0 : Int) ≠ 1 := by
  refine ⟨by decide, by decide, by decide, by decide⟩

/-- C1 (amended): CreateVolume converts the parsed byte count to the
provider's size value via integer division by 1,000 applied twice — a single
truncating division by 1,000,000 in total (then a 32-bit cast) — so 1,999,999
bytes convert to 1 (never rounded up), and size `"5000000000"` creates a
remote disk resource named `"vol1"` whose submitted size value is 5000. -/
theorem azure_sizeConversion_megabytes :
    ∀ (a : CreateEnv) (config : Config) (name data provider s : String) (n : Nat)
      (v : NanosVolume),
      atoi s = some (n : Int) → n / 1000000 < 2 ^ 31 →
      a.localVolume = .ok v → a.copyResult = .ok () →
      (createVolume a config name data s provider).steps =
        [.synth, .upload name, .remoteCreate name ((n / 1000000 : Nat) : Int)] ∧
      goDiv (goDiv 1999999 1000) 1000 = 1 ∧
      goDiv (goDiv 5000000000 1000) 1000 = 5000 := by
  intro a config name data provider s n v h1 h2 h3 h4
  refine ⟨?_, by decide, by decide⟩
  have hconv := sizeConv_eq n h2
  cases hD : a.diskCreateResult with
  | error e => simp [createVolume, h1, h3, h4, hD, hconv]
  | ok u => simp [createVolume, h1, h3, h4, hD, hconv]

/-- Closed instance of `azure_sizeConversion_megabytes` at the concrete
scenario size `"5000000000"`. -/
theorem azure_sizeConversion_megabytes_witness :
    (createVolume envOK cfg0 "vol1" "" "5000000000" "azure").steps =
      [.synth, .upload "vol1", .remoteCreate "vol1" ((5000000000 / 1000000 : Nat) : Int)] ∧
    ((5000000000 / 1000000 : Nat) : Int) = 5000 :=
  ⟨(azure_sizeConversion_megabytes envOK cfg0 "vol1" "" "azure" "5000000000"
      5000000000 vol0 (by decide) (by decide) rfl rfl).1,
    by decide⟩

/-- C2: AttachVolume fetches the instance descriptor and the disk descriptor
(each failure surfaced from its own fetch), replaces the instance's entire
data-disk list with the single-element list containing the named disk at
logical-unit-number 0 regardless of any pre-existing entries, leaves the rest
of the descriptor unchanged, submits the update and succeeds only when the
completion wait succeeds; a wait failure is surfaced as a distinct error kind
from a submission failure. -/
theorem azure_attachVolume_spec :
    ∀ (vm : VirtualMachine) (disk : DiskResource) (diskID : String)
      (ur wr : Except String Unit) (name : String),
      disk.id = some diskID →
      (ur = .ok () → wr = .ok () →
        attachVolume (.ok vm) (.ok disk) ur wr name =
          some (.ok (), some { vm with dataDisks := [attachDataDisk name diskID] })) ∧
      (∀ e, ur = .error e →
        attachVolume (.ok vm) (.ok disk) ur wr name =
          some (.error (.update ("cannot update vm: " ++ e)),
            some { vm with dataDisks := [attachDataDisk name diskID] })) ∧
      (∀ e, ur = .ok () → wr = .error e →
        attachVolume (.ok vm) (.ok disk) ur wr name =
          some (.error (.wait ("cannot get the vm create or update future response: " ++ e)),
            some { vm with dataDisks := [attachDataDisk name diskID] })) ∧
      (∀ e dg, attachVolume (.error e) dg ur wr name = some (.error (.getVM e), none)) ∧
      (∀ e, attachVolume (.ok vm) (.error e) ur wr name =
        some (.error (.getDisk e), none)) ∧
      (∀ a b, VMOpErr.update a ≠ VMOpErr.wait b) := by
  intro vm disk diskID ur wr name hid
  refine ⟨?_, ?_, ?_, ?_, ?_, ?_⟩
  · intro h1 h2
    simp [attachVolume, hid, h1, h2]
  · intro e h1
    simp [attachVolume, hid, h1]
  · intro e h1 h2
    simp [attachVolume, hid, h1, h2]
  · intro e dg
    simp [attachVolume]
  · intro e
    simp [attachVolume]
  · intro a b h
    exact VMOpErr.noConfusion h

/-- Closed instance of `azure_attachVolume_spec`: attaching `"v1"` to a VM
that already has a data disk replaces the list with the single new entry. -/
theorem azure_attachVolume_spec_witness :
    attachVolume (.ok vmEx) (.ok diskRes) (.ok ()) (.ok ()) "v1" =
      some (.ok (), some { vmEx with dataDisks := [attachDataDisk "v1" "DID"] }) :=
  (azure_attachVolume_spec vmEx diskRes "DID" (.ok ()) (.ok ()) "v1" rfl).1 rfl rfl

/-- C3: DetachVolume is idempotent with respect to absent names: when every
data-disk entry of the instance has a name different from the given volume
name, the submitted data-disk list is the original list, element for element
and in order, and the operation returns success. -/
theorem azure_detachVolume_absent_noop :
    ∀ (vm : VirtualMachine) (name : String),
      (∀ d ∈ vm.dataDisks, ∃ dn, d.name = some dn ∧ dn ≠ name) →
      detachVolume (.ok vm) (.ok ()) (.ok ()) name = some (.ok (), some vm) := by
  intro vm name h
  simp [detachVolume, detachFilter_of_no_match name vm.dataDisks h]

/-- Closed instance of `azure_detachVolume_absent_noop`: detaching a name not
attached to the sample VM submits its original data-disk list and succeeds. -/
theorem azure_detachVolume_absent_noop_witness :
    detachVolume (.ok vmEx) (.ok ()) (.ok ()) "v1" = some (.ok (), some vmEx) :=
  azure_detachVolume_absent_noop vmEx "v1" (by
    intro d hd
    simp only [vmEx, List.mem_singleton] at hd
    subst hd
    exact ⟨"old", rfl, by decide⟩)

/-- C4: every volume produced by the listing loop has `AttachedTo` equal to
the trailing path segment (after the last `/`) of the provider's managed-by
reference — or the empty string when that reference is absent — and an empty
`Path`. -/
theorem azure_getAllVolumes_attachedTo_path :
    ∀ (d : Disk) (v : NanosVolume), diskToVolume d = some v →
      v.attachedTo = specAttachedTo d.managedBy ∧ v.path = "" := by
  intro d v h
  obtain ⟨n, mb, props⟩ := d
  cases n with
  | none => simp [diskToVolume] at h
  | some nm =>
    cases props with
    | none => simp [diskToVolume] at h
    | some p =>
      obtain ⟨st, gb, tc⟩ := p
      cases gb with
      | none => simp [diskToVolume] at h
      | some g =>
        cases tc with
        | none => simp [diskToVolume] at h
        | some t =>
          simp only [diskToVolume, Option.some.injEq] at h
          rw [← h]
          exact ⟨attachedToOf_eq_spec mb, rfl⟩

/-- A disk descriptor attached to instance `inst7`, as listed. -/
def diskAttached : Disk :=
  ⟨some "vol1", some "/subs/s/vms/inst7", some ⟨"Attached", some 5, some "2024-01-01"⟩⟩

/-- The volume record the listing loop produces for `diskAttached`. -/
def volAttached : NanosVolume :=
  { name := "vol1", status := "Attached", size := "5", path := "",
    createdAt := "2024-01-01", attachedTo := "inst7" }

/-- Closed instance of `azure_getAllVolumes_attachedTo_path` at a concrete
attached disk. -/
theorem azure_getAllVolumes_attachedTo_path_witness :
    volAttached.attachedTo = specAttachedTo diskAttached.managedBy ∧
    volAttached.path = "" :=
  azure_getAllVolumes_attachedTo_path diskAttached volAttached (by decide)

/-- C10: the listing loop's per-disk conversion succeeds (no nil-pointer
panic) exactly when the descriptor populates `Name`, `DiskProperties`,
`DiskSizeGB` and `TimeCreated`; and the detach filter succeeds exactly when
every data-disk entry populates `Name`. -/
theorem azure_deref_preconditions :
    (∀ d : Disk, (diskToVolume d).isSome ↔
      d.name.isSome ∧
        ∃ p, d.properties = some p ∧ p.diskSizeGB.isSome ∧ p.timeCreated.isSome) ∧
    (∀ (name : String) (dds : List DataDisk),
      (detachFilter name dds).isSome ↔ ∀ d ∈ dds, d.name.isSome) := by
  constructor
  · intro d
    obtain ⟨n, mb, props⟩ := d
    cases n with
    | none => simp [diskToVolume]
    | some nm =>
      cases props with
      | none => simp [diskToVolume]
      | some p =>
        obtain ⟨st, gb, tc⟩ := p
        cases gb <;> cases tc <;> simp [diskToVolume]
  · intro name dds
    induction dds with
    | nil => simp [detachFilter]
    | cons d ds ih =>
      rw [List.forall_mem_cons]
      cases hn : d.name with
      | none => simp [detachFilter, hn]
      | some dn =>
        cases hf : detachFilter name ds with
        | none =>
          rw [hf] at ih
          simp only [Option.isSome_none, Bool.false_eq_true, false_iff] at ih
          simp [detachFilter, hn, hf, ih]
        | some r =>
          rw [hf] at ih
          simp only [Option.isSome_some, true_iff] at ih
          simp only [detachFilter, hn, hf, Option.isSome_some, true_iff, true_and]
          exact fun x hx => ih x hx

/-- A listed disk descriptor with all dereferenced fields populated. -/
def listedDisk (n tc : String) : Disk :=
  ⟨some n, none, some ⟨"Unattached", some 1, some tc⟩⟩

/-- The volume record the listing loop produces for `listedDisk n tc`. -/
def listedVol (n tc : String) : NanosVolume :=
  { name := n, status := "Unattached", size := "1", path := "", createdAt := tc,
    attachedTo := "" }

/-- C5 is violated by the code: `Next()` is called once per disk inside the
inner loop, so with a first page of two disks followed by a page holding
`d3`, the second page is skipped and `d3` is missing from the result, while
an empty account still yields an empty successful list. -/
theorem azure_getAllVolumes_skips_pages :
    getAllVolumes (.ok [listedDisk "d1" "t1", listedDisk "d2" "t2"])
        [some [listedDisk "d3" "t3"], some []] =
      some (.ok [listedVol "d1" "t1", listedVol "d2" "t2"]) ∧
    listedVol "d3" "t3" ∉ [listedVol "d1" "t1", listedVol "d2" "t2"] ∧
    getAllVolumes (.ok []) ([] : List (Option (List Disk))) =
      some (.ok ([] : List NanosVolume)) := by
  refine ⟨rfl, by decide, rfl⟩

/-- C6 is violated by the code: the error returned by `Next()` is discarded,
so a provider failure during pagination does not produce an error — here the
listing returns successfully (with `d1` collected twice, since the failed
`Next()` leaves the page unchanged) — while only a failure of the initial
`List()` call is surfaced. -/
theorem azure_getAllVolumes_ignores_next_error :
    getAllVolumes (.ok [listedDisk "d1" "t1"]) [none] =
      some (.ok [listedVol "d1" "t1", listedVol "d1" "t1"]) ∧
    getAllVolumes (.error "provider failure") ([] : List (Option (List Disk))) =
      some (.error "provider failure") :=
  ⟨rfl, rfl⟩

end Ops
